import Mathlib

/-!
Verification development for the clinic-management client scripts
(`style.css`, which contains the page's JavaScript despite its name, and
`firebase_app.js`).

The browser handlers are embedded shallowly as pure functions from their
inputs (DOM state relevant to the handler, plus the outcome of any network
request the handler issues) to a trace of observable effects, in the order
the code performs them.  Host primitives that the repository does not
define (string trimming, the falsiness test of JavaScript) are modelled
explicitly below as executable Lean functions matching their documented
behaviour.
-/

set_option autoImplicit false

namespace Clinic

/-- JavaScript falsiness of an optional string: `!x || !x.value` style tests
treat a missing element (`none`) and an empty string as falsy. -/
def optStrFalsy : Option String → Bool
  | none => true
  | some s => s == ""

/-- Models the host primitive `String.prototype.trim`: strip leading and
trailing whitespace. -/
def jsTrim (s : String) : String :=
  ⟨((s.data.dropWhile Char.isWhitespace).reverse.dropWhile Char.isWhitespace).reverse⟩

/-- One rendered node of the search-result panel: either a
`div.search-result-item` with its two data attributes and display text, or
the `div.search-no-results` placeholder.  The handler builds the panel's
`innerHTML` as a string; we model that string by its list of nodes. -/
inductive ResultRow where
  | item (dataId dataName text : String)
  | noResults (text : String)
  deriving DecidableEq

/-- Observable effects of the handlers, in program order. -/
inductive Effect where
  /-- `showNotification(message, type)`; the default type is `"success"`. -/
  | notify (message ty : String)
  /-- `form.reset()` on the form with this id. -/
  | formReset (formId : String)
  /-- `element.style.display = value` on the element with this id. -/
  | setDisplay (elemId value : String)
  /-- `setTimeout(() => window.location.reload(), delayMs)`. -/
  | scheduleReload (delayMs : Nat)
  /-- `fetch(url, (method POST, body formData))`. -/
  | fetchPost (url : String)
  /-- the search `GET` request, carrying the (to-be-URL-encoded) term. -/
  | searchRequest (term : String)
  /-- `console.error(msg)`. -/
  | consoleError (msg : String)
  /-- `console.log(msg)`. -/
  | consoleLog (msg : String)
  /-- `console.warn(msg)`. -/
  | consoleWarn (msg : String)
  /-- `input.value = value` on the element with this id. -/
  | setValue (elemId value : String)
  /-- `element.textContent = text` on the element with this id. -/
  | setText (elemId text : String)
  /-- `searchResults.innerHTML = html`, the html given by its node list. -/
  | setResults (rows : List ResultRow)
  /-- `onAuthStateChanged(auth, callback)` registration. -/
  | registerAuthListener
  /-- `onSnapshot(query(collection(db, path)), ...)` subscription. -/
  | openSnapshot (path : String)
  deriving DecidableEq

/-- Whether an effect is a user-visible notification. -/
def Effect.isNotify : Effect → Bool
  | .notify _ _ => true
  | _ => false

/-- Whether an effect resets some form. -/
def Effect.isFormReset : Effect → Bool
  | .formReset _ => true
  | _ => false

/-! ### Section 4 of `style.css`: AJAX form submission -/

/-- The parsed JSON envelope of a 2xx form-submission response:
`(status: "success"|string, message?: string)`. -/
structure Envelope where
  status : String
  message : Option String
  deriving DecidableEq

/-- How the submission's `fetch` settles: the promise rejects (network
error), or resolves with an HTTP status and a JSON body. -/
inductive FetchOutcome where
  | rejected (msg : String)
  | resolved (httpStatus : Nat) (body : Envelope)
  deriving DecidableEq

/-- `response.ok`: HTTP status in the range 200-299. -/
def responseOk (httpStatus : Nat) : Bool :=
  decide (200 ≤ httpStatus) && decide (httpStatus < 300)

/-- `data.message || fallback`: JavaScript `||` falls through on a missing
or empty message. -/
def jsOr (message : Option String) (fallback : String) : String :=
  match message with
  | none => fallback
  | some m => if m == "" then fallback else m

/-- The special validation at the top of the submit handler:
`(formId === 'consultationForm' || formId === 'appointmentForm')` and then
`!patientIdInput || !patientIdInput.value`. -/
def patientCheckFails (formId : String) (patientIdValue : Option String) : Bool :=
  (formId == "consultationForm" || formId == "appointmentForm")
    && optStrFalsy patientIdValue

/-- The fixed backend endpoint shared by all form submissions. -/
def postUrl : String := "/clinic-system/api/handler.php"

/-- `if (modal) modal.style.display = 'none'` for `form.closest('.modal')`. -/
def closeModalEffects : Option String → List Effect
  | some modalId => [Effect.setDisplay modalId "none"]
  | none => []

/-- The submit handler installed by `handleFormSubmission(formId,
successMessage, failureMessage)`, as a function of the value of
`#patient_id_input` (`none` when the element is absent), the id of the
form's closest `.modal` ancestor (`none` when there is none), and the
outcome of the `fetch` that the handler issues when it gets that far. -/
def handleFormSubmit (formId successMessage failureMessage : String)
    (patientIdValue : Option String) (closestModal : Option String)
    (outcome : FetchOutcome) : List Effect :=
  if patientCheckFails formId patientIdValue then
    [Effect.notify "Please select a patient first." "error"]
  else
    Effect.fetchPost postUrl ::
    match outcome with
    | .rejected msg =>
        [Effect.consoleError ("Submission Error: " ++ msg),
         Effect.notify ("An unexpected error occurred: " ++ msg) "error"]
    | .resolved httpStatus body =>
        if responseOk httpStatus then
          if body.status == "success" then
            Effect.notify successMessage "success" ::
            Effect.formReset formId ::
            (closeModalEffects closestModal ++ [Effect.scheduleReload 500])
          else
            [Effect.notify
              (failureMessage ++ ": " ++ jsOr body.message "Unknown error.")
              "error"]
        else
          [Effect.consoleError
            ("Submission Error: " ++ ("HTTP error! Status: " ++ toString httpStatus)),
           Effect.notify
            ("An unexpected error occurred: " ++ ("HTTP error! Status: " ++ toString httpStatus))
            "error"]

/-- The four `handleFormSubmission(formId, successMessage, failureMessage)`
calls made at load time. -/
def boundForms : List (String × String × String) :=
  [("patientForm", "Patient record added successfully!", "Failed to add patient"),
   ("consultationForm", "Consultation logged successfully!", "Failed to log consultation"),
   ("medicineForm", "Medicine added to inventory successfully!", "Failed to add medicine"),
   ("appointmentForm", "Appointment scheduled successfully!", "Failed to schedule appointment")]

/-! ### Section 3 of `style.css`: patient search and selection -/

/-- One record of the search response array. -/
structure PatientRecord where
  patient_id : String
  full_name : String
  id_number : String
  deriving DecidableEq

/-- How the search `fetch` chain settles: rejected (network error or
unparsable body, both reach the single `.catch`), or resolved with the
parsed JSON value — `none` models a JSON `null` body, `some` an array. -/
inductive SearchOutcome where
  | rejected (msg : String)
  | resolved (data : Option (List PatientRecord))
  deriving DecidableEq

/-- The row built for one record:
`<div class="search-result-item" data-id=... data-name=...>full_name (id_number)</div>`. -/
def renderRow (p : PatientRecord) : ResultRow :=
  .item p.patient_id p.full_name (p.full_name ++ " (" ++ p.id_number ++ ")")

/-- The `keyup` handler of `#patient_search_input`, as a function of the
input's current value and of the outcome of the search request it issues
when the trimmed term is long enough. -/
def onSearchKeyup (value : String) (outcome : SearchOutcome) : List Effect :=
  let searchTerm := jsTrim value
  if searchTerm.length < 2 then
    [Effect.setResults []]
  else
    Effect.searchRequest searchTerm ::
    match outcome with
    | .rejected msg =>
        [Effect.consoleError ("Error searching patients: " ++ msg)]
    | .resolved data =>
        match data with
        | some ps =>
            if ps.length > 0 then
              [Effect.setResults (ps.map renderRow)]
            else
              [Effect.setResults [ResultRow.noResults "No patients found."]]
        | none =>
            [Effect.setResults [ResultRow.noResults "No patients found."]]

/-- The click target inside `#patient_search_results`: whether its class
list contains `search-result-item`, and its two data attributes. -/
structure ClickTarget where
  isResultItem : Bool
  dataId : String
  dataName : String
  deriving DecidableEq

/-- The click handler of `#patient_search_results`, as a function of the
event target and of whether `#patient_id_input` and
`#patient_name_display` were found at wiring time. -/
def onResultClick (target : ClickTarget) (hasIdInput hasNameDisplay : Bool) :
    List Effect :=
  if target.isResultItem then
    if hasIdInput && hasNameDisplay then
      [Effect.setValue "patient_id_input" target.dataId,
       Effect.setText "patient_name_display" ("Selected: " ++ target.dataName),
       Effect.setValue "patient_search_input" "",
       Effect.setResults []]
    else
      [Effect.consoleError
        "Missing required elements for patient selection (patient_id_input or patient_name_display)"]
  else []

/-! ### Section 2 of `style.css`: modal handlers -/

/-- A modal element as the close-button handler sees it: its id and the
result of `modal.querySelector('form')` (the id of the first form inside
it, or `none`). -/
structure ModalInfo where
  id : String
  firstForm : Option String
  deriving DecidableEq

/-- The click handler of a `.modal .close-button`, as a function of
`button.closest('.modal')`. -/
def onCloseButtonClick (closestModal : Option ModalInfo) : List Effect :=
  match closestModal with
  | none => []
  | some m =>
      Effect.setDisplay m.id "none" ::
      (match m.firstForm with
       | some f => [Effect.formReset f]
       | none => [])

/-- An arbitrary DOM element as the window click handler sees it: its id,
class list, and the first form inside it (relevant when it is a modal). -/
structure DomTarget where
  id : String
  classes : List String
  firstForm : Option String
  deriving DecidableEq

/-- The global `window` click handler: if the event target itself has class
`modal`, hide it. -/
def onWindowClick (target : DomTarget) : List Effect :=
  if target.classes.contains "modal" then
    [Effect.setDisplay target.id "none"]
  else []

/-! ### `firebase_app.js`: realtime service bootstrap -/

/-- The module-level service handles of `firebase_app.js`.  The SDK objects
`app`, `db`, `auth` are modelled by `Option Unit` (only their nullness is
observable to this code). -/
structure FirebaseState where
  app : Option Unit
  db : Option Unit
  auth : Option Unit
  userId : Option String
  isAuthReady : Bool
  deriving DecidableEq

/-- The initial values of the module-level variables: everything `null`,
readiness `false`. -/
def initialFirebaseState : FirebaseState :=
  { app := none, db := none, auth := none, userId := none, isAuthReady := false }

/-- `initializeFirebase()`, as a function of the parsed configuration blob
(a JSON object given by its key-value pairs), the optional injected auth
token, and whether the awaited sign-in call throws (`some` an error
message) — the SDK calls themselves are external.  Returns the new state
of the module-level variables and the trace of effects. -/
def initializeFirebase (firebaseConfig : List (String × String))
    (initialAuthToken : Option String) (signInError : Option String)
    (st : FirebaseState) : FirebaseState × List Effect :=
  if firebaseConfig.isEmpty then
    (st, [Effect.consoleError "Firebase configuration is missing or empty."])
  else
    let st1 := { st with app := some (), db := some (), auth := some () }
    let signInLog :=
      match initialAuthToken with
      | some _ => Effect.consoleLog "Signing in with custom token..."
      | none => Effect.consoleLog "Signing in anonymously..."
    match signInError with
    | some err =>
        (st1, [signInLog,
               Effect.consoleError ("Firebase initialization failed: " ++ err)])
    | none =>
        (st1, [signInLog, Effect.registerAuthListener])

/-- The callback registered with `onAuthStateChanged`: `user` is the
observed user's uid (or `none`), `randomUUID` the value produced by
`crypto.randomUUID()` in the fallback branch. -/
def authStateCallback (user : Option String) (randomUUID : String)
    (st : FirebaseState) : FirebaseState × List Effect :=
  match user with
  | some uid =>
      ({ st with userId := some uid, isAuthReady := true },
       [Effect.consoleLog ("User authenticated. UID: " ++ uid)])
  | none =>
      ({ st with userId := some randomUUID, isAuthReady := true },
       [Effect.consoleWarn
         ("Authentication failed or user logged out. Using anonymous UUID: " ++ randomUUID)])

/-- `fetchRealtimeData()`, as a function of the module state and the
injected `appId`.  The guard is `!isAuthReady || !db || !userId`. -/
def fetchRealtimeData (appId : String) (st : FirebaseState) : List Effect :=
  if !st.isAuthReady || st.db.isNone || optStrFalsy st.userId then
    [Effect.consoleError "Cannot fetch data: Firebase or Auth not ready."]
  else
    let uid := st.userId.getD ""
    let collectionPath := "/artifacts/" ++ appId ++ "/users/" ++ uid ++ "/your_items"
    [Effect.consoleLog ("Listening to collection: " ++ collectionPath),
     Effect.openSnapshot collectionPath]

end Clinic

namespace Clinic

/-! ### Helper lemmas and spec-side predicates -/

/-- Whether `needle` occurs as a contiguous run of characters in `hay`
(used to state "the notification contains the literal text ..."). -/
def charsContain (needle : List Char) : List Char → Bool
  | [] => needle.isEmpty
  | c :: t => needle.isPrefixOf (c :: t) || charsContain needle t

/-- Substring test on strings, via their character lists. -/
def strContainsSub (needle hay : String) : Bool :=
  charsContain needle.data hay.data

/-- A falsy message (`none` or `""`) makes `jsOr` produce the fallback. -/
theorem jsOr_falsy (m : Option String) (fallback : String)
    (h : optStrFalsy m = true) : jsOr m fallback = fallback := by
  cases m with
  | none => rfl
  | some s =>
      simp only [optStrFalsy, beq_iff_eq] at h
      simp [jsOr, h]

end Clinic

namespace Clinic

/-- Claim C1: for every bound form, a submission whose fetch resolves with
a 2xx response whose JSON body has status `"success"` produces, in order,
the POST, the configured success notification, the form reset, the hiding
of the enclosing modal when one exists, and the scheduling of a page
reload after 500 ms; the trace equality shows no earlier step is skipped
even when the scheduled reload itself is stubbed out. -/
theorem C1_success_path (fid sm fm : String) (pid modal : Option String)
    (httpStatus : Nat) (body : Envelope)
    (hb : (fid, sm, fm) ∈ boundForms)
    (hp : patientCheckFails fid pid = false)
    (hok : responseOk httpStatus = true)
    (hs : body.status = "success") :
    handleFormSubmit fid sm fm pid modal (.resolved httpStatus body) =
      Effect.fetchPost postUrl ::
      Effect.notify sm "success" ::
      Effect.formReset fid ::
      (closeModalEffects modal ++ [Effect.scheduleReload 500]) := by
  simp [handleFormSubmit, hp, hok, hs]

/-- Witness for C1 at a concrete input: `patientForm` inside modal
`addPatientModal`, response `200` with body status `"success"`. -/
theorem C1_success_path_witness :
    ("patientForm", "Patient record added successfully!", "Failed to add patient") ∈ boundForms ∧
    patientCheckFails "patientForm" none = false ∧
    responseOk 200 = true ∧
    handleFormSubmit "patientForm" "Patient record added successfully!"
        "Failed to add patient" none (some "addPatientModal")
        (.resolved 200 { status := "success", message := none }) =
      Effect.fetchPost postUrl ::
      Effect.notify "Patient record added successfully!" "success" ::
      Effect.formReset "patientForm" ::
      (closeModalEffects (some "addPatientModal") ++ [Effect.scheduleReload 500]) :=
  ⟨by decide, by decide, by decide,
   C1_success_path "patientForm" "Patient record added successfully!"
     "Failed to add patient" none (some "addPatientModal") 200
     { status := "success", message := none }
     (by decide) (by decide) (by decide) rfl⟩

/-- Counterexample to claim C2 as stated: for the response
`(status: "duplicate", message: "ID exists")` on `patientForm`, the
notification text is exactly `"Failed to add patient: ID exists"`, which
does not contain the literal text `"duplicate... ID exists"` (it does not
even contain `"duplicate"`). -/
theorem C2_counterexample :
    handleFormSubmit "patientForm" "Patient record added successfully!"
        "Failed to add patient" none none
        (.resolved 200 { status := "duplicate", message := some "ID exists" }) =
      [Effect.fetchPost postUrl,
       Effect.notify "Failed to add patient: ID exists" "error"] ∧
    strContainsSub "duplicate... ID exists" "Failed to add patient: ID exists" = false ∧
    strContainsSub "duplicate" "Failed to add patient: ID exists" = false := by
  refine ⟨by decide, by decide, by decide⟩

/-- Claim C2 (amended): for every bound form, a 2xx response whose status
differs from `"success"` and carries a non-empty message produces exactly
one error notification, the fixed failure prefix joined to the server
message by `": "` (so for `(status: "duplicate", message: "ID exists")` on
`patientForm` it reads `"Failed to add patient: ID exists"` — it contains
the server message but not the status value); the form is not reset and no
reload is scheduled. -/
theorem C2_failure_notification (fid sm fm : String) (pid modal : Option String)
    (httpStatus : Nat) (body : Envelope) (m : String)
    (hb : (fid, sm, fm) ∈ boundForms)
    (hp : patientCheckFails fid pid = false)
    (hok : responseOk httpStatus = true)
    (hs : body.status ≠ "success")
    (hm : body.message = some m) (hne : m ≠ "") :
    handleFormSubmit fid sm fm pid modal (.resolved httpStatus body) =
      [Effect.fetchPost postUrl, Effect.notify (fm ++ ": " ++ m) "error"] ∧
    (handleFormSubmit fid sm fm pid modal (.resolved httpStatus body)).any
      Effect.isFormReset = false := by
  have hsb : (body.status == "success") = false := beq_eq_false_iff_ne.mpr hs
  have hmb : (m == "") = false := beq_eq_false_iff_ne.mpr hne
  constructor <;>
    simp [handleFormSubmit, hp, hok, hsb, jsOr, hm, hmb, Effect.isFormReset]

/-- Witness for C2 (amended) at the concrete duplicate-id response. -/
theorem C2_failure_notification_witness :
    ("patientForm", "Patient record added successfully!", "Failed to add patient") ∈ boundForms ∧
    handleFormSubmit "patientForm" "Patient record added successfully!"
        "Failed to add patient" none none
        (.resolved 200 { status := "duplicate", message := some "ID exists" }) =
      [Effect.fetchPost postUrl,
       Effect.notify ("Failed to add patient" ++ ": " ++ "ID exists") "error"] :=
  ⟨by decide,
   (C2_failure_notification "patientForm" "Patient record added successfully!"
     "Failed to add patient" none none 200
     { status := "duplicate", message := some "ID exists" } "ID exists"
     (by decide) (by decide) (by decide) (by decide) rfl (by decide)).1⟩

/-- Claim C3: with a falsy patient identifier (absent element or empty
value), submitting `consultationForm` or `appointmentForm` yields only the
"Please select a patient first." error notification — in particular no
`fetchPost` effect — while for `patientForm` and `medicineForm` the check
is not applied and the handler always proceeds to the POST. -/
theorem C3_patient_precheck (sm fm : String) (pid modal : Option String)
    (outcome : FetchOutcome) (hempty : optStrFalsy pid = true) :
    (∀ fid, fid = "consultationForm" ∨ fid = "appointmentForm" →
      handleFormSubmit fid sm fm pid modal outcome =
        [Effect.notify "Please select a patient first." "error"]) ∧
    (∀ fid, fid = "patientForm" ∨ fid = "medicineForm" →
      (handleFormSubmit fid sm fm pid modal outcome).head? =
        some (Effect.fetchPost postUrl)) := by
  constructor
  · rintro fid (rfl | rfl) <;>
      simp [handleFormSubmit, patientCheckFails, hempty]
  · rintro fid (rfl | rfl) <;> rfl

/-- Witness for C3: an empty patient identifier blocks `appointmentForm`
with no POST, while `patientForm` proceeds to the POST. -/
theorem C3_patient_precheck_witness :
    optStrFalsy (some "") = true ∧
    handleFormSubmit "appointmentForm" "Appointment scheduled successfully!"
        "Failed to schedule appointment" (some "") none
        (.resolved 200 { status := "success", message := none }) =
      [Effect.notify "Please select a patient first." "error"] ∧
    (handleFormSubmit "patientForm" "Patient record added successfully!"
        "Failed to add patient" (some "") none
        (.resolved 200 { status := "success", message := none })).head? =
      some (Effect.fetchPost postUrl) :=
  ⟨by decide,
   (C3_patient_precheck "Appointment scheduled successfully!"
     "Failed to schedule appointment" (some "") none
     (.resolved 200 { status := "success", message := none }) (by decide)).1
     "appointmentForm" (Or.inr rfl),
   (C3_patient_precheck "Patient record added successfully!"
     "Failed to add patient" (some "") none
     (.resolved 200 { status := "success", message := none }) (by decide)).2
     "patientForm" (Or.inl rfl)⟩

end Clinic

namespace Clinic

/-- Claim C4: on a keyup whose value trims to fewer than 2 characters, the
handler only clears the result panel — no search request is issued,
whatever the network would have answered. -/
theorem C4_short_term_clears (value : String) (outcome : SearchOutcome)
    (h : (jsTrim value).length < 2) :
    onSearchKeyup value outcome = [Effect.setResults []] := by
  simp [onSearchKeyup, h]

/-- Witness for C4 at the concrete input `"a "` (trims to length 1). -/
theorem C4_short_term_clears_witness :
    (jsTrim "a ").length < 2 ∧
    onSearchKeyup "a " (SearchOutcome.rejected "unreachable") =
      [Effect.setResults []] :=
  ⟨by decide,
   C4_short_term_clears "a " (SearchOutcome.rejected "unreachable") (by decide)⟩

/-- Claim C5: for a term of trimmed length at least 2, a response parsed
as a non-empty array of N records renders exactly N result rows, each
carrying the record's `patient_id` and `full_name` verbatim as data
attributes and the display text `full_name (id_number)`; an empty array or
a null body renders exactly one "No patients found." placeholder. -/
theorem C5_render_rows (value : String)
    (h : ¬ (jsTrim value).length < 2) :
    (∀ ps : List PatientRecord, ps ≠ [] →
      onSearchKeyup value (.resolved (some ps)) =
        [Effect.searchRequest (jsTrim value),
         Effect.setResults (ps.map renderRow)] ∧
      (ps.map renderRow).length = ps.length ∧
      ∀ p ∈ ps, renderRow p =
        ResultRow.item p.patient_id p.full_name
          (p.full_name ++ " (" ++ p.id_number ++ ")")) ∧
    onSearchKeyup value (.resolved (some [])) =
      [Effect.searchRequest (jsTrim value),
       Effect.setResults [ResultRow.noResults "No patients found."]] ∧
    onSearchKeyup value (.resolved none) =
      [Effect.searchRequest (jsTrim value),
       Effect.setResults [ResultRow.noResults "No patients found."]] := by
  refine ⟨?_, ?_, ?_⟩
  · intro ps hne
    have hlen : ps.length > 0 := List.length_pos.mpr hne
    refine ⟨?_, by simp, fun p _ => rfl⟩
    simp [onSearchKeyup, h, hlen]
  · simp [onSearchKeyup, h]
  · simp [onSearchKeyup, h]

/-- Witness for C5 at the concrete term `"jo"` with one record and with a
null body. -/
theorem C5_render_rows_witness :
    ¬ (jsTrim "jo").length < 2 ∧
    onSearchKeyup "jo"
        (SearchOutcome.resolved (some [⟨"1", "John Smith", "ID-1"⟩])) =
      [Effect.searchRequest (jsTrim "jo"),
       Effect.setResults ([⟨"1", "John Smith", "ID-1"⟩].map renderRow)] ∧
    onSearchKeyup "jo" (SearchOutcome.resolved none) =
      [Effect.searchRequest (jsTrim "jo"),
       Effect.setResults [ResultRow.noResults "No patients found."]] :=
  ⟨by decide,
   ((C5_render_rows "jo" (by decide)).1 [⟨"1", "John Smith", "ID-1"⟩]
     (by decide)).1,
   (C5_render_rows "jo" (by decide)).2.2⟩

/-- Claim C6: clicking a rendered `search-result-item` row (with both
target fields present) writes that row's `data-id` into the identifier
field and its `data-name` into the name display, then clears the search
input and the result panel — the trace mentions no other row's data. -/
theorem C6_row_selection (target : ClickTarget)
    (h : target.isResultItem = true) :
    onResultClick target true true =
      [Effect.setValue "patient_id_input" target.dataId,
       Effect.setText "patient_name_display" ("Selected: " ++ target.dataName),
       Effect.setValue "patient_search_input" "",
       Effect.setResults []] := by
  simp [onResultClick, h]

/-- Witness for C6 at a concrete rendered row. -/
theorem C6_row_selection_witness :
    ClickTarget.isResultItem ⟨true, "1", "John Smith"⟩ = true ∧
    onResultClick ⟨true, "1", "John Smith"⟩ true true =
      [Effect.setValue "patient_id_input" "1",
       Effect.setText "patient_name_display" ("Selected: " ++ "John Smith"),
       Effect.setValue "patient_search_input" "",
       Effect.setResults []] :=
  ⟨rfl, C6_row_selection ⟨true, "1", "John Smith"⟩ rfl⟩

/-- Counterexample to claim C7 as stated: a click landing exactly on the
backdrop of modal `addPatientModal`, whose first inner form is
`patientForm`, closes the modal (display set to none) yet produces no form
reset anywhere in the trace. -/
theorem C7_counterexample :
    onWindowClick
        { id := "addPatientModal", classes := ["modal"],
          firstForm := some "patientForm" } =
      [Effect.setDisplay "addPatientModal" "none"] ∧
    (onWindowClick
        { id := "addPatientModal", classes := ["modal"],
          firstForm := some "patientForm" }).any Effect.isFormReset = false := by
  exact ⟨rfl, rfl⟩

/-- Claim C7 (amended): a close-button click closes the nearest enclosing
modal and resets its first inner form, but a backdrop click (event target
being the modal element itself) only hides the modal and resets no form. -/
theorem C7_close_paths (m : ModalInfo) (f : String) (t : DomTarget)
    (hf : m.firstForm = some f)
    (ht : t.classes.contains "modal" = true) :
    onCloseButtonClick (some m) =
      [Effect.setDisplay m.id "none", Effect.formReset f] ∧
    onWindowClick t = [Effect.setDisplay t.id "none"] ∧
    (onWindowClick t).any Effect.isFormReset = false := by
  have ht' : "modal" ∈ t.classes := by simpa using ht
  refine ⟨?_, ?_, ?_⟩ <;>
    simp [onCloseButtonClick, onWindowClick, hf, ht', Effect.isFormReset]

/-- Witness for C7 (amended) at a concrete modal and backdrop target. -/
theorem C7_close_paths_witness :
    ModalInfo.firstForm ⟨"addPatientModal", some "patientForm"⟩ = some "patientForm" ∧
    List.contains ["modal"] "modal" = true ∧
    onCloseButtonClick (some ⟨"addPatientModal", some "patientForm"⟩) =
      [Effect.setDisplay "addPatientModal" "none",
       Effect.formReset "patientForm"] ∧
    onWindowClick ⟨"addPatientModal", ["modal"], some "patientForm"⟩ =
      [Effect.setDisplay "addPatientModal" "none"] :=
  ⟨rfl, by decide,
   (C7_close_paths ⟨"addPatientModal", some "patientForm"⟩ "patientForm"
     ⟨"addPatientModal", ["modal"], some "patientForm"⟩ rfl (by decide)).1,
   (C7_close_paths ⟨"addPatientModal", some "patientForm"⟩ "patientForm"
     ⟨"addPatientModal", ["modal"], some "patientForm"⟩ rfl (by decide)).2.1⟩

end Clinic

namespace Clinic

/-- Counterexample to claim C8 as stated: a rejected patient-search fetch
is only logged — the trace holds no notification effect at all, so the
failure is not "surfaced as a generic user-visible error notification" for
the search GET. -/
theorem C8_counterexample :
    onSearchKeyup "John" (SearchOutcome.rejected "Failed to fetch") =
      [Effect.searchRequest "John",
       Effect.consoleError ("Error searching patients: " ++ "Failed to fetch")] ∧
    (onSearchKeyup "John" (SearchOutcome.rejected "Failed to fetch")).any
      Effect.isNotify = false := by
  exact ⟨by decide, by decide⟩

/-- Claim C8 (amended): transport failures of the form-submission POST — a
rejected fetch or a non-2xx HTTP response — are caught, logged, and
surfaced as a generic error notification with no retry; transport failures
of the patient-search GET are caught and logged only, with no user-visible
notification (and no retry). -/
theorem C8_transport_failures (fid sm fm : String) (pid modal : Option String)
    (hp : patientCheckFails fid pid = false) :
    (∀ msg, handleFormSubmit fid sm fm pid modal (.rejected msg) =
      [Effect.fetchPost postUrl,
       Effect.consoleError ("Submission Error: " ++ msg),
       Effect.notify ("An unexpected error occurred: " ++ msg) "error"]) ∧
    (∀ (httpStatus : Nat) (body : Envelope), responseOk httpStatus = false →
      handleFormSubmit fid sm fm pid modal (.resolved httpStatus body) =
        [Effect.fetchPost postUrl,
         Effect.consoleError
           ("Submission Error: " ++ ("HTTP error! Status: " ++ toString httpStatus)),
         Effect.notify
           ("An unexpected error occurred: " ++ ("HTTP error! Status: " ++ toString httpStatus))
           "error"]) ∧
    (∀ (value msg : String), ¬ (jsTrim value).length < 2 →
      onSearchKeyup value (.rejected msg) =
        [Effect.searchRequest (jsTrim value),
         Effect.consoleError ("Error searching patients: " ++ msg)] ∧
      (onSearchKeyup value (.rejected msg)).any Effect.isNotify = false) := by
  refine ⟨?_, ?_, ?_⟩
  · intro msg
    simp [handleFormSubmit, hp]
  · intro httpStatus body hfail
    simp [handleFormSubmit, hp, hfail]
  · intro value msg h
    constructor <;> simp [onSearchKeyup, h, Effect.isNotify]

/-- Witness for C8 (amended): a rejected POST, a 500 response, and a
rejected search fetch, at concrete inputs. -/
theorem C8_transport_failures_witness :
    patientCheckFails "patientForm" none = false ∧
    handleFormSubmit "patientForm" "Patient record added successfully!"
        "Failed to add patient" none none (.rejected "network down") =
      [Effect.fetchPost postUrl,
       Effect.consoleError ("Submission Error: " ++ "network down"),
       Effect.notify ("An unexpected error occurred: " ++ "network down") "error"] ∧
    handleFormSubmit "patientForm" "Patient record added successfully!"
        "Failed to add patient" none none
        (.resolved 500 { status := "success", message := none }) =
      [Effect.fetchPost postUrl,
       Effect.consoleError
         ("Submission Error: " ++ ("HTTP error! Status: " ++ toString 500)),
       Effect.notify
         ("An unexpected error occurred: " ++ ("HTTP error! Status: " ++ toString 500))
         "error"] ∧
    (onSearchKeyup "John" (SearchOutcome.rejected "boom")).any Effect.isNotify = false :=
  ⟨by decide,
   (C8_transport_failures "patientForm" "Patient record added successfully!"
     "Failed to add patient" none none (by decide)).1 "network down",
   (C8_transport_failures "patientForm" "Patient record added successfully!"
     "Failed to add patient" none none (by decide)).2.1 500
     { status := "success", message := none } (by decide),
   ((C8_transport_failures "patientForm" "Patient record added successfully!"
     "Failed to add patient" none none (by decide)).2.2 "John" "boom"
     (by decide)).2⟩

/-- Claim C9: with an empty configuration blob, `initializeFirebase` only
logs an error and leaves the module state exactly as it started — every
handle `none` and the readiness flag `false` — whatever the injected token
or the sign-in behaviour would have been; and `fetchRealtimeData` on that
state only logs an error, opening no subscription. -/
theorem C9_empty_config_inert (tok err : Option String) (appId : String) :
    initializeFirebase [] tok err initialFirebaseState =
      (initialFirebaseState,
       [Effect.consoleError "Firebase configuration is missing or empty."]) ∧
    initialFirebaseState.app = none ∧
    initialFirebaseState.db = none ∧
    initialFirebaseState.auth = none ∧
    initialFirebaseState.userId = none ∧
    initialFirebaseState.isAuthReady = false ∧
    fetchRealtimeData appId initialFirebaseState =
      [Effect.consoleError "Cannot fetch data: Firebase or Auth not ready."] :=
  ⟨rfl, rfl, rfl, rfl, rfl, rfl, rfl⟩

/-- Claim C10: a 2xx response whose status is not `"success"` and whose
message is missing or empty produces the notification text
`failureMessage ++ ": " ++ "Unknown error."` — the fixed fallback, never
an undefined value — and the form is still not reset. -/
theorem C10_unknown_error_fallback (fid sm fm : String)
    (pid modal : Option String) (httpStatus : Nat) (body : Envelope)
    (hb : (fid, sm, fm) ∈ boundForms)
    (hp : patientCheckFails fid pid = false)
    (hok : responseOk httpStatus = true)
    (hs : body.status ≠ "success")
    (hm : optStrFalsy body.message = true) :
    handleFormSubmit fid sm fm pid modal (.resolved httpStatus body) =
      [Effect.fetchPost postUrl,
       Effect.notify (fm ++ ": " ++ "Unknown error.") "error"] ∧
    (handleFormSubmit fid sm fm pid modal (.resolved httpStatus body)).any
      Effect.isFormReset = false := by
  have hsb : (body.status == "success") = false := beq_eq_false_iff_ne.mpr hs
  have hfall : jsOr body.message "Unknown error." = "Unknown error." :=
    jsOr_falsy body.message "Unknown error." hm
  constructor <;>
    simp [handleFormSubmit, hp, hok, hsb, hfall, Effect.isFormReset]

/-- Witness for C10 at a concrete input: `medicineForm`, response `200`
with status `"error"` and no message field. -/
theorem C10_unknown_error_fallback_witness :
    ("medicineForm", "Medicine added to inventory successfully!", "Failed to add medicine") ∈ boundForms ∧
    handleFormSubmit "medicineForm" "Medicine added to inventory successfully!"
        "Failed to add medicine" none none
        (.resolved 200 { status := "error", message := none }) =
      [Effect.fetchPost postUrl,
       Effect.notify ("Failed to add medicine" ++ ": " ++ "Unknown error.") "error"] :=
  ⟨by decide,
   (C10_unknown_error_fallback "medicineForm"
     "Medicine added to inventory successfully!" "Failed to add medicine"
     none none 200 { status := "error", message := none }
     (by decide) (by decide) (by decide) (by decide) rfl).1⟩

end Clinic
